import Mathlib

/-!
Verification of the fakturoid-bot service against its specification.

The development shallowly embeds the relevant parts of the source:
* `app/fakturoid_service.py` — OAuth token cache, invoice-line
  reconciliation (`build_invoice_lines`), `create_invoice`, and the
  issue-date helper `get_last_day_of_previous_month`;
* `app/main.py` — HTTP Basic credential check (`verify_credentials`),
  the invoice-creation endpoint, and the template-detail endpoint;
* `app/config.py` — the template store and `reload_templates`.

Remote HTTP responses and the file system are passed in explicitly as
inputs; stateful code is modelled by explicit state passing.  Quantities
and monetary amounts are modelled by `Rat` (Python floats appear only as
pass-through values, never in arithmetic the claims depend on).
-/

namespace FakturoidBot

/-- A line of a remote generator as returned by the Fakturoid API.
`unit_name`, `unit_price` and `vat_rate` are optional in the JSON and
read with `.get` defaults in the source. -/
structure GeneratorLine where
  name : String
  unit_name : Option String
  unit_price : Option Rat
  vat_rate : Option Rat
deriving DecidableEq, Repr

/-- An invoice line ready for the API, as assembled by
`FakturoidService.build_invoice_lines`. -/
structure InvoiceLine where
  name : String
  quantity : Rat
  unit_name : String
  unit_price : Rat
  vat_rate : Rat
deriving DecidableEq, Repr

/-- The exception payload of the `ValueError` raised by
`build_invoice_lines`: the unmatched name and the list of available
(valid) line names. -/
inductive BuildError where
  | lineNotFound (name : String) (available : List String)
deriving DecidableEq, Repr

/-- Lookup in `{line["name"]: line for line in generator_lines}` at `name`:
a Python dict comprehension lets the last occurrence of a key win. -/
def template_lookup (generator_lines : List GeneratorLine) (name : String) :
    Option GeneratorLine :=
  generator_lines.reverse.find? (fun l => l.name == name)

/-- The keys of `{line["name"]: line for line in generator_lines}`:
Python dict keys keep first-occurrence order, reassignment keeps the
original slot. -/
def dict_keys : List String → List String
  | [] => []
  | n :: rest => n :: dict_keys (rest.filter (fun m => m != n))
termination_by l => l.length
decreasing_by
  simp only [List.length_cons]
  exact Nat.lt_succ_of_le (List.length_filter_le _ _)

/-- One element appended by the loop body of `build_invoice_lines` for a
matched request entry `(name, quantity)` and template line `tl`. -/
def mk_invoice_line (name : String) (quantity : Rat) (tl : GeneratorLine) :
    InvoiceLine :=
  ⟨name, quantity, tl.unit_name.getD "", tl.unit_price.getD 0, tl.vat_rate.getD 0⟩

/-- Embedding of `FakturoidService.build_invoice_lines`: iterate the requested
quantities in order; on the first name with no exact match in the
generator's lines raise `ValueError` with the available names, otherwise
assemble the invoice lines. -/
def build_invoice_lines (generator_lines : List GeneratorLine) :
    List (String × Rat) → Except BuildError (List InvoiceLine)
  | [] => .ok []
  | (name, quantity) :: rest =>
    match template_lookup generator_lines name with
    | none =>
        .error (.lineNotFound name
          (dict_keys (generator_lines.map GeneratorLine.name)))
    | some tl =>
        (build_invoice_lines generator_lines rest).map
          (fun tail => mk_invoice_line name quantity tl :: tail)

/-! ### Token manager (`FakturoidService._get_access_token`) -/

/-- The token cache fields of `FakturoidService`:
`_access_token` and `_token_expires_at` (seconds, as an integer clock;
`datetime` differences in the source are exact). -/
structure TokenState where
  access_token : Option String
  token_expires_at : Option Int
deriving DecidableEq, Repr

/-- The OAuth token endpoint's reply: HTTP status, `access_token`, and
the optional `expires_in` field of the JSON body. -/
structure OAuthResponse where
  status : Nat
  access_token : String
  expires_in : Option Int
deriving DecidableEq, Repr

/-- The constant `TOKEN_EXPIRY_BUFFER = 300` — refresh 5 minutes before
expiry. -/
def TOKEN_EXPIRY_BUFFER : Int := 300

/-- The cache-hit test of `_get_access_token`:
`if self._access_token and self._token_expires_at:` followed by
`if datetime.now() < self._token_expires_at - timedelta(seconds=300):`.
Note the Python truthiness test — an empty cached token string is falsy
and forces a refresh. -/
def token_cache_hit (st : TokenState) (now : Int) : Bool :=
  match st.access_token, st.token_expires_at with
  | some t, some e => t != "" && decide (now < e - TOKEN_EXPIRY_BUFFER)
  | _, _ => false

/-- Embedding of `FakturoidService._get_access_token`, with the wall
clock `now` and the would-be OAuth response passed in explicitly.  The
result is the returned token (or the raised exception's message), the
new cache state, and the number of OAuth requests performed. -/
def get_access_token (st : TokenState) (now : Int) (resp : OAuthResponse) :
    Except String String × TokenState × Nat :=
  if token_cache_hit st now then
    (.ok ((st.access_token).getD ""), st, 0)
  else
    if resp.status != 200 then
      (.error ("OAuth token request failed: " ++ toString resp.status), st, 1)
    else
      let expires_in := resp.expires_in.getD 7200
      (.ok resp.access_token,
        ⟨some resp.access_token, some (now + expires_in)⟩, 1)

/-! ### `FakturoidService.create_invoice` -/

/-- A remote HTTP response: status code and (already parsed) body,
plus the raw text used in error messages. -/
structure HttpResponse where
  status : Nat
  text : String
deriving DecidableEq, Repr

/-- The invoice JSON returned by the remote service on success; the
claims only need it as an opaque parsed value, so it is the response
text tagged as parsed. -/
structure Invoice where
  body : String
deriving DecidableEq, Repr

/-- Embedding of `FakturoidService.create_invoice`, with the remote response to the
POST passed in explicitly.  Returns the parsed invoice or the raised
exception's message, and the number of invoice-creation POSTs performed
(always exactly one).  The source accepts exactly the statuses
`[200, 201]`. -/
def create_invoice (resp : HttpResponse) : Except String Invoice × Nat :=
  if resp.status = 200 ∨ resp.status = 201 then
    (.ok ⟨resp.text⟩, 1)
  else
    (.error ("Failed to create invoice: " ++ resp.text), 1)

/-! ### `get_last_day_of_previous_month` -/

/-- A calendar date (proleptic Gregorian, as used by Python's
`datetime`). -/
structure Date where
  year : Nat
  month : Nat
  day : Nat
deriving DecidableEq, Repr

/-- Gregorian leap-year rule. -/
def isLeapYear (y : Nat) : Bool :=
  y % 4 = 0 && (y % 100 != 0 || y % 400 = 0)

/-- Number of days of month `m` of year `y`. -/
def daysInMonth (y m : Nat) : Nat :=
  if m = 2 then (if isLeapYear y then 29 else 28)
  else if m = 4 ∨ m = 6 ∨ m = 9 ∨ m = 11 then 30
  else 31

/-- Validity of a date: `1 ≤ month ≤ 12`, `1 ≤ day ≤ daysInMonth`,
positive year. -/
def Date.valid (d : Date) : Prop :=
  1 ≤ d.year ∧ 1 ≤ d.month ∧ d.month ≤ 12 ∧ 1 ≤ d.day ∧ d.day ≤ daysInMonth d.year d.month

/-- Calendar decrement `date - timedelta(days=1)` on a valid date. -/
def subOneDay (d : Date) : Date :=
  if 1 < d.day then ⟨d.year, d.month, d.day - 1⟩
  else if 1 < d.month then ⟨d.year, d.month - 1, daysInMonth d.year (d.month - 1)⟩
  else ⟨d.year - 1, 12, 31⟩

/-- Zero-padded two-digit field of `strftime`. -/
def pad2 (n : Nat) : String :=
  if n < 10 then "0" ++ toString n else toString n

/-- Zero-padded four-digit year field of `strftime("%Y")`. -/
def pad4 (n : Nat) : String :=
  if n < 10 then "000" ++ toString n
  else if n < 100 then "00" ++ toString n
  else if n < 1000 then "0" ++ toString n
  else toString n

/-- Formatting `strftime("%Y-%m-%d")`. -/
def formatDate (d : Date) : String :=
  pad4 d.year ++ "-" ++ pad2 d.month ++ "-" ++ pad2 d.day

/-- Embedding of `get_last_day_of_previous_month`, with `datetime.now()` passed in as
`today`: replace the day by 1, subtract one day, format. -/
def get_last_day_of_previous_month (today : Date) : String :=
  formatDate (subOneDay ⟨today.year, today.month, 1⟩)

/-- The spec's words: "the last calendar day of the month preceding the
call date" — the month before `today`'s month, at its last day. -/
def lastDayOfPreviousMonthSpec (today : Date) : Date :=
  if today.month = 1 then ⟨today.year - 1, 12, 31⟩
  else ⟨today.year, today.month - 1, daysInMonth today.year (today.month - 1)⟩

/-! ### `verify_credentials` (`app/main.py`) -/

/-- The payload of a raised `HTTPException`: status code and structured
detail. -/
inductive ErrorDetail where
  | invalidCredentials
  | templateNotFound (name : String) (available : List String)
  | emptyLines
  | generatorNoLines (generator_id : Int)
  | lineNotFound (name : String) (available : List String)
  | upstream (message : String)
deriving DecidableEq, Repr

/-- A raised `HTTPException`. -/
structure HttpError where
  status : Nat
  detail : ErrorDetail
deriving DecidableEq, Repr

/-- The functional content of `secrets.compare_digest` on UTF-8 byte
strings: equality (the source uses the constant-time library
primitive; its result is equality of the two byte strings). -/
def compare_digest (a b : String) : Bool :=
  a == b

/-- Embedding of `verify_credentials`: compare the supplied username and password
each against the configured value; raise 401 unless both comparisons
succeed, otherwise return the username.  Both comparisons are always
evaluated (they are separate assignments in the source). -/
def verify_credentials (username password api_username api_password : String) :
    Except HttpError String :=
  let username_correct := compare_digest username api_username
  let password_correct := compare_digest password api_password
  if ¬ (username_correct && password_correct) then
    .error ⟨401, .invalidCredentials⟩
  else
    .ok username

/-! ### Template store (`app/config.py`) -/

/-- The `TemplateConfig` model of `app/config.py`. -/
structure TemplateConfig where
  generator_id : Int
  subject_id : Int
  due_days : Int
  description : Option String
deriving DecidableEq, Repr

/-- The `_templates` dict: an association list with unique keys kept in
insertion order. -/
abbrev TemplateStore := List (String × TemplateConfig)

/-- Embedding of `AppConfig.get_template`: `self._templates.get(name)`. -/
def get_template (store : TemplateStore) (name : String) : Option TemplateConfig :=
  ((store : List (String × TemplateConfig)).find? (fun p => p.1 == name)).map Prod.snd

/-- The names list `list(config.list_templates().keys())`. -/
def template_names (store : TemplateStore) : List String :=
  (store : List (String × TemplateConfig)).map Prod.fst

/-- The outcome of the file-system search of `AppConfig._load_templates`:
`none` when no candidate path exists, `some (.error e)` when the file
fails to parse, `some (.ok data)` when it parses to a template dict. -/
abbrev TemplatesFile := Option (Except String (List (String × TemplateConfig)))

/-- Insert one parsed template: `self._templates[name] = TemplateConfig(**config)`
(overwrite in place if the key exists, else append). -/
def store_insert (store : TemplateStore) (name : String) (cfg : TemplateConfig) :
    TemplateStore :=
  if (store : List (String × TemplateConfig)).any (fun p => p.1 == name) then
    (store : List (String × TemplateConfig)).map
      (fun p => if p.1 == name then (name, cfg) else p)
  else
    (store : List (String × TemplateConfig)) ++ [(name, cfg)]

/-- Embedding of `AppConfig._load_templates`: when a file is found and parses, merge
its entries into the current store; when no file is found the store is
untouched (only a warning is printed); when parsing raises
`json.JSONDecodeError` the exception is caught before any entry was
inserted, so the store is untouched as well. -/
def load_templates (store : TemplateStore) (file : TemplatesFile) : TemplateStore :=
  match file with
  | none => store
  | some (.error _) => store
  | some (.ok data) => data.foldl (fun s p => store_insert s p.1 p.2) store

/-- Embedding of `AppConfig.reload_templates`: `self._templates.clear()` then
`self._load_templates()`. -/
def reload_templates (store : TemplateStore) (file : TemplatesFile) : TemplateStore :=
  let _ := store
  load_templates [] file

/-! ### Endpoints (`app/main.py`) -/

/-- The generator JSON used by the endpoints: its `lines` field
(`generator.get("lines", [])`). -/
structure Generator where
  lines : List GeneratorLine
deriving DecidableEq, Repr

/-- The `POST /invoice/{template_name}` handler after authentication,
with the two remote interactions passed in explicitly: `gen_result` is
the outcome of `FAKTUROID_SERVICE.get_generator` (an `Exception`
message on failure) and `create_resp` the remote response to the
invoice-creation POST, only consulted if that POST happens.  The result
pairs the endpoint outcome (the reconciled lines and created invoice,
or the raised `HTTPException`) with the number of invoice-creation
POSTs performed. -/
def create_invoice_endpoint (store : TemplateStore) (template_name : String)
    (request_lines : List (String × Rat)) (gen_result : Except String Generator)
    (create_resp : HttpResponse) :
    Except HttpError (List InvoiceLine × Invoice) × Nat :=
  match get_template store template_name with
  | none =>
      (.error ⟨404, .templateNotFound template_name (template_names store)⟩, 0)
  | some template =>
    if request_lines.isEmpty then
      (.error ⟨400, .emptyLines⟩, 0)
    else
      match gen_result with
      | .error e => (.error ⟨500, .upstream e⟩, 0)
      | .ok generator =>
        if generator.lines.isEmpty then
          (.error ⟨400, .generatorNoLines template.generator_id⟩, 0)
        else
          match build_invoice_lines generator.lines request_lines with
          | .error (.lineNotFound n available) =>
              (.error ⟨400, .lineNotFound n available⟩, 0)
          | .ok invoice_lines =>
            match create_invoice create_resp with
            | (.error e, posts) => (.error ⟨500, .upstream e⟩, posts)
            | (.ok invoice, posts) => (.ok (invoice_lines, invoice), posts)

/-- The `TemplateInfo` response of the template-detail endpoint. -/
structure TemplateInfo where
  name : String
  generator_id : Int
  subject_id : Int
  due_days : Int
  description : Option String
  available_lines : Option (List String)
deriving DecidableEq, Repr

/-- The `GET /templates/{template_name}` handler after authentication,
with the outcome of the remote generator fetch passed in explicitly.
An unknown template raises 404; any exception from the generator fetch
is swallowed (`available_lines` becomes `None`) and the endpoint still
returns the `TemplateInfo`. -/
def get_template_details (store : TemplateStore) (template_name : String)
    (gen_result : Except String Generator) : Except HttpError TemplateInfo :=
  match get_template store template_name with
  | none =>
      .error ⟨404, .templateNotFound template_name (template_names store)⟩
  | some template =>
    let available_lines :=
      match gen_result with
      | .ok generator => some (generator.lines.map GeneratorLine.name)
      | .error _ => none
    .ok ⟨template_name, template.generator_id, template.subject_id,
      template.due_days, template.description, available_lines⟩

/-! ### Helper lemmas -/

/-- A name fails the dict lookup exactly when it is absent from the
generator's line names. -/
theorem template_lookup_eq_none (gls : List GeneratorLine) (n : String) :
    template_lookup gls n = none ↔ n ∉ gls.map GeneratorLine.name := by
  simp [template_lookup, List.find?_eq_none, List.mem_reverse, List.mem_map]

/-- Membership in the dict's key list agrees with membership in the
original name list. -/
theorem mem_dict_keys (l : List String) (m : String) :
    m ∈ dict_keys l ↔ m ∈ l := by
  induction l using dict_keys.induct with
  | case1 => simp [dict_keys]
  | case2 n rest ih =>
    rw [dict_keys]
    simp only [List.mem_cons, ih, List.mem_filter, bne_iff_ne, ne_eq, decide_not]
    by_cases hm : m = n <;> simp [hm]

/-- If some requested name has no match, reconciliation raises
`ValueError` whose payload lists the dict's keys. -/
theorem build_invoice_lines_error_of_missing (gls : List GeneratorLine)
    (req : List (String × Rat)) (n : String) (q : Rat)
    (hmem : (n, q) ∈ req) (hmiss : template_lookup gls n = none) :
    ∃ m, template_lookup gls m = none ∧
      build_invoice_lines gls req
        = .error (.lineNotFound m (dict_keys (gls.map GeneratorLine.name))) := by
  induction req with
  | nil => cases hmem
  | cons p rest ih =>
    rcases List.mem_cons.mp hmem with heq | hmem'
    · subst heq
      exact ⟨n, hmiss, by simp [build_invoice_lines, hmiss]⟩
    · obtain ⟨m', q'⟩ := p
      cases hl : template_lookup gls m' with
      | none => exact ⟨m', hl, by simp [build_invoice_lines, hl]⟩
      | some tl =>
        obtain ⟨m'', hm'', hb⟩ := ih hmem'
        exact ⟨m'', hm'', by simp [build_invoice_lines, hl, hb, Except.map]⟩

/-- Successful reconciliation relates request entries and produced lines
pointwise: the produced line is assembled from the request entry's name
and quantity and the matching template line's fields. -/
theorem build_invoice_lines_ok_spec (gls : List GeneratorLine)
    (req : List (String × Rat)) (lines : List InvoiceLine)
    (h : build_invoice_lines gls req = .ok lines) :
    List.Forall₂ (fun p il => ∃ tl, template_lookup gls p.1 = some tl ∧
      il = mk_invoice_line p.1 p.2 tl) req lines := by
  induction req generalizing lines with
  | nil =>
    simp only [build_invoice_lines, Except.ok.injEq] at h
    subst h
    exact .nil
  | cons p rest ih =>
    obtain ⟨m, q⟩ := p
    cases hl : template_lookup gls m with
    | none => simp [build_invoice_lines, hl] at h
    | some tl =>
      cases hrest : build_invoice_lines gls rest with
      | error e => simp [build_invoice_lines, hl, hrest, Except.map] at h
      | ok tail =>
        simp only [build_invoice_lines, hl, hrest, Except.map, Except.ok.injEq] at h
        subst h
        exact .cons ⟨tl, hl, rfl⟩ (ih tail hrest)

/-! ### Claims -/

/-- C1: Line reconciliation is all-or-nothing: if any requested name has
no exact-name match among the generator lines, reconciliation fails with
the full list of valid names, produces no invoice line list, and the
endpoint performs no invoice-creation call to the remote service. -/
theorem line_reconciliation_all_or_nothing
    (store : TemplateStore) (template_name : String)
    (request_lines : List (String × Rat)) (generator : Generator)
    (create_resp : HttpResponse) (n : String) (q : Rat)
    (hmem : (n, q) ∈ request_lines)
    (hmiss : n ∉ generator.lines.map GeneratorLine.name) :
    (∀ lines, build_invoice_lines generator.lines request_lines ≠ .ok lines) ∧
    (∃ m avail, build_invoice_lines generator.lines request_lines
        = .error (.lineNotFound m avail) ∧
      (∀ name, name ∈ avail ↔ name ∈ generator.lines.map GeneratorLine.name)) ∧
    (create_invoice_endpoint store template_name request_lines (.ok generator)
        create_resp).2 = 0 := by
  have hlk : template_lookup generator.lines n = none :=
    (template_lookup_eq_none _ _).mpr hmiss
  obtain ⟨m, hm, hb⟩ :=
    build_invoice_lines_error_of_missing generator.lines request_lines n q hmem hlk
  refine ⟨?_, ⟨m, _, hb, fun name => mem_dict_keys _ _⟩, ?_⟩
  · intro lines hok
    rw [hb] at hok
    exact Except.noConfusion hok
  · cases hg : get_template store template_name with
    | none => simp [create_invoice_endpoint, hg]
    | some t =>
      have hne : request_lines.isEmpty = false := by
        cases request_lines with
        | nil => cases hmem
        | cons _ _ => rfl
      cases hgl : generator.lines.isEmpty with
      | true => simp [create_invoice_endpoint, hg, hne, hgl]
      | false => simp [create_invoice_endpoint, hg, hne, hgl, hb]

/-- Witness for C1 at a concrete input: requested name "X" absent from a
generator whose only line is "A". -/
theorem line_reconciliation_all_or_nothing_witness :
    (∀ lines, build_invoice_lines [⟨"A", some "h", some 10, some 21⟩] [("X", 1)]
        ≠ .ok lines) ∧
    (create_invoice_endpoint [("t", ⟨7, 8, 14, none⟩)] "t" [("X", 1)]
        (.ok ⟨[⟨"A", some "h", some 10, some 21⟩]⟩) ⟨201, "inv"⟩).2 = 0 := by
  have h := line_reconciliation_all_or_nothing [("t", ⟨7, 8, 14, none⟩)] "t"
    [("X", 1)] ⟨[⟨"A", some "h", some 10, some 21⟩]⟩ ⟨201, "inv"⟩ "X" 1
    (by decide) (by decide)
  exact ⟨h.1, h.2.2⟩

/-- C2: For every successful reconciliation, each produced invoice line
takes its name and quantity from the request and its unit_name,
unit_price and vat_rate from the matching generator line; in particular
the concrete round trip of the spec holds. -/
theorem reconciled_fields_from_generator
    (gls : List GeneratorLine) (req : List (String × Rat))
    (lines : List InvoiceLine)
    (h : build_invoice_lines gls req = .ok lines) :
    List.Forall₂ (fun p il => ∃ tl, template_lookup gls p.1 = some tl ∧
      il.name = p.1 ∧ il.quantity = p.2 ∧
      il.unit_name = tl.unit_name.getD "" ∧
      il.unit_price = tl.unit_price.getD 0 ∧
      il.vat_rate = tl.vat_rate.getD 0) req lines ∧
    build_invoice_lines [⟨"A", some "h", some 10, some 21⟩] [("A", 3)]
      = .ok [⟨"A", 3, "h", 10, 21⟩] := by
  constructor
  · refine (build_invoice_lines_ok_spec gls req lines h).imp ?_
    rintro p il ⟨tl, htl, rfl⟩
    exact ⟨tl, htl, rfl, rfl, rfl, rfl, rfl⟩
  · rfl

/-- Witness for C2: the spec's round-trip example, obtained from the
theorem applied at that concrete input. -/
theorem reconciled_fields_from_generator_witness :
    build_invoice_lines [⟨"A", some "h", some 10, some 21⟩] [("A", 3)]
      = .ok [⟨"A", 3, "h", 10, 21⟩] :=
  (reconciled_fields_from_generator [⟨"A", some "h", some 10, some 21⟩]
    [("A", 3)] [⟨"A", 3, "h", 10, 21⟩] rfl).2

/-- C3: Token lifecycle: a cache hit (a cached token with a stored
expiry, now earlier than expiry minus the 5-minute buffer) returns the
cached token with no remote request and no state change; otherwise
exactly one OAuth request is performed and, on a 200 response, the
returned token is stored with expiry `now + expires_in` (default 7200)
and returned. -/
theorem token_lifecycle (st : TokenState) (now : Int) (resp : OAuthResponse) :
    (token_cache_hit st now = true ↔ ∃ t e, st.access_token = some t ∧ t ≠ "" ∧
      st.token_expires_at = some e ∧ now < e - TOKEN_EXPIRY_BUFFER) ∧
    (∀ t, st.access_token = some t → token_cache_hit st now = true →
      get_access_token st now resp = (.ok t, st, 0)) ∧
    (token_cache_hit st now = false → resp.status = 200 →
      get_access_token st now resp =
        (.ok resp.access_token,
          ⟨some resp.access_token, some (now + resp.expires_in.getD 7200)⟩, 1)) := by
  refine ⟨?_, ?_, ?_⟩
  · cases ht : st.access_token with
    | none => simp [token_cache_hit, ht]
    | some t =>
      cases he : st.token_expires_at with
      | none => simp [token_cache_hit, ht, he]
      | some e =>
        simp [token_cache_hit, ht, he, bne_iff_ne]
  · intro t ht hhit
    simp [get_access_token, hhit, ht]
  · intro hmiss hstatus
    simp [get_access_token, hmiss, hstatus]

/-- Witness for C3: a cache hit returns the stored token without a
request, at the concrete state token "tok", expiry 10000, now 0. -/
theorem token_lifecycle_witness :
    get_access_token ⟨some "tok", some 10000⟩ 0 ⟨200, "new", none⟩
      = (.ok "tok", ⟨some "tok", some 10000⟩, 0) :=
  (token_lifecycle ⟨some "tok", some 10000⟩ 0 ⟨200, "new", none⟩).2.1 "tok"
    rfl (by decide)

/-- C8: Token refresh is atomic on error: when the cache misses and the
OAuth response is not 200, `_get_access_token` raises and both cached
fields keep exactly the values they held before the call. -/
theorem token_refresh_atomic_on_error (st : TokenState) (now : Int)
    (resp : OAuthResponse) (hmiss : token_cache_hit st now = false)
    (hstatus : resp.status ≠ 200) :
    ∃ msg, get_access_token st now resp = (.error msg, st, 1) := by
  refine ⟨"OAuth token request failed: " ++ toString resp.status, ?_⟩
  simp [get_access_token, hmiss, hstatus]

/-- Witness for C8: a 401 OAuth response leaves an empty cache state
untouched. -/
theorem token_refresh_atomic_on_error_witness :
    ∃ msg, get_access_token ⟨none, none⟩ 0 ⟨401, "denied", none⟩
      = (.error msg, ⟨none, none⟩, 1) :=
  token_refresh_atomic_on_error ⟨none, none⟩ 0 ⟨401, "denied", none⟩
    (by decide) (by decide)

/-- C4: The computed invoice issue date equals the last calendar day of
the month preceding the call date, formatted `YYYY-MM-DD`; in
particular any call in March 2024 (a leap year) yields "2024-02-29". -/
theorem issue_date_is_last_day_of_previous_month (today : Date)
    (hy : 1 ≤ today.year) (hm1 : 1 ≤ today.month) (hm2 : today.month ≤ 12) :
    get_last_day_of_previous_month today
      = formatDate (lastDayOfPreviousMonthSpec today) ∧
    (lastDayOfPreviousMonthSpec today).day
      = daysInMonth (lastDayOfPreviousMonthSpec today).year
          (lastDayOfPreviousMonthSpec today).month ∧
    (today.year = 2024 → today.month = 3 →
      get_last_day_of_previous_month today = "2024-02-29") := by
  have hstep : subOneDay ⟨today.year, today.month, 1⟩
      = lastDayOfPreviousMonthSpec today := by
    by_cases h1 : today.month = 1
    · simp [subOneDay, lastDayOfPreviousMonthSpec, h1]
    · have hlt : 1 < today.month := by omega
      simp [subOneDay, lastDayOfPreviousMonthSpec, h1, hlt]
  refine ⟨by rw [get_last_day_of_previous_month, hstep], ?_, ?_⟩
  · by_cases h1 : today.month = 1
    · simp [lastDayOfPreviousMonthSpec, h1, daysInMonth, isLeapYear]
    · simp [lastDayOfPreviousMonthSpec, h1]
  · intro hy24 hm3
    rw [get_last_day_of_previous_month, hstep]
    simp [lastDayOfPreviousMonthSpec, hy24, hm3]
    rfl

/-- Witness for C4: a call on 2024-03-15 yields "2024-02-29". -/
theorem issue_date_witness :
    get_last_day_of_previous_month ⟨2024, 3, 15⟩ = "2024-02-29" :=
  (issue_date_is_last_day_of_previous_month ⟨2024, 3, 15⟩ (by decide)
    (by decide) (by decide)).2.2 rfl rfl

/-- C5 counterexample: HTTP 202 is a 2xx success status, yet
`create_invoice` fails on it, so "for every 2xx status it returns the
parsed invoice" is false at status 202. -/
theorem create_invoice_rejects_202 :
    (200 ≤ 202 ∧ 202 < 300) ∧
    (create_invoice ⟨202, "accepted"⟩).1
      = .error ("Failed to create invoice: " ++ "accepted") :=
  ⟨by decide, rfl⟩

/-- C5 (amended): create_invoice performs a single remote POST and
fails, surfacing the remote message, if and only if the response status
is neither 200 nor 201; for statuses 200 and 201 it returns the parsed
invoice. -/
theorem create_invoice_fails_iff_not_200_or_201 (resp : HttpResponse) :
    (create_invoice resp).2 = 1 ∧
    ((create_invoice resp).1 = .ok ⟨resp.text⟩
      ↔ (resp.status = 200 ∨ resp.status = 201)) ∧
    (¬(resp.status = 200 ∨ resp.status = 201) →
      (create_invoice resp).1
        = .error ("Failed to create invoice: " ++ resp.text)) := by
  by_cases h : resp.status = 200 ∨ resp.status = 201 <;>
    simp [create_invoice, h]

/-- Witness for C5's amended theorem: a 404 response produces the
wrapped remote message. -/
theorem create_invoice_fails_witness :
    (create_invoice ⟨404, "nope"⟩).1
      = .error ("Failed to create invoice: " ++ "nope") :=
  (create_invoice_fails_iff_not_200_or_201 ⟨404, "nope"⟩).2.2 (by decide)

/-- C6: Inbound-call authentication: the supplied username and password
are each compared against the configured values and the request is
rejected with HTTP 401 unless both comparisons succeed; it is accepted
exactly when both match. -/
theorem inbound_auth_both_must_match (u p U P : String) :
    (verify_credentials u p U P = .ok u ↔ (u = U ∧ p = P)) ∧
    (¬(u = U ∧ p = P) →
      verify_credentials u p U P = .error ⟨401, .invalidCredentials⟩) := by
  by_cases hu : u = U <;> by_cases hp : p = P <;>
    simp [verify_credentials, compare_digest, hu, hp]

/-- Witness for C6: a wrong password is rejected with 401. -/
theorem inbound_auth_witness :
    verify_credentials "alice" "pw" "alice" "x"
      = .error ⟨401, .invalidCredentials⟩ :=
  (inbound_auth_both_must_match "alice" "pw" "alice" "x").2 (by decide)

/-- C7: An invoice-creation request for an unknown template is rejected
with 404 together with the valid template names, and one whose line map
is empty is rejected with 400; both before any remote invoice-creation
call (the call count is 0). -/
theorem invalid_request_rejected_before_remote (store : TemplateStore)
    (template_name : String) (request_lines : List (String × Rat))
    (gen_result : Except String Generator) (create_resp : HttpResponse) :
    (get_template store template_name = none →
      create_invoice_endpoint store template_name request_lines gen_result
          create_resp
        = (.error ⟨404, .templateNotFound template_name (template_names store)⟩,
            0)) ∧
    (request_lines = [] → ∀ t, get_template store template_name = some t →
      create_invoice_endpoint store template_name request_lines gen_result
          create_resp
        = (.error ⟨400, .emptyLines⟩, 0)) := by
  constructor
  · intro h
    simp [create_invoice_endpoint, h]
  · rintro rfl t h
    simp [create_invoice_endpoint, h]

/-- Witness for C7: unknown template "u" against a store holding only
"t" yields 404 with the valid names; an empty line map against "t"
yields 400; neither performs a creation POST. -/
theorem invalid_request_rejected_witness :
    create_invoice_endpoint [("t", ⟨7, 8, 14, none⟩)] "u" [("A", 1)]
        (.error "down") ⟨201, "inv"⟩
      = (.error ⟨404, .templateNotFound "u" ["t"]⟩, 0) ∧
    create_invoice_endpoint [("t", ⟨7, 8, 14, none⟩)] "t" []
        (.error "down") ⟨201, "inv"⟩
      = (.error ⟨400, .emptyLines⟩, 0) :=
  ⟨(invalid_request_rejected_before_remote [("t", ⟨7, 8, 14, none⟩)] "u"
      [("A", 1)] (.error "down") ⟨201, "inv"⟩).1 rfl,
   (invalid_request_rejected_before_remote [("t", ⟨7, 8, 14, none⟩)] "t"
      [] (.error "down") ⟨201, "inv"⟩).2 rfl ⟨7, 8, 14, none⟩ rfl⟩

/-- C9: Template reload is not atomic: the store is cleared before
loading, so when no templates file exists or the file fails to parse the
store ends up empty and the previously loaded templates are lost. -/
theorem reload_templates_loses_store_on_failure (store : TemplateStore)
    (file : TemplatesFile)
    (h : file = none ∨ ∃ e, file = some (.error e)) :
    reload_templates store file = [] := by
  rcases h with rfl | ⟨e, rfl⟩ <;> rfl

/-- Witness for C9: a populated store is emptied by a reload that finds
no templates file. -/
theorem reload_templates_loses_store_witness :
    reload_templates [("t", ⟨7, 8, 14, none⟩)] none = [] :=
  reload_templates_loses_store_on_failure [("t", ⟨7, 8, 14, none⟩)] none
    (Or.inl rfl)

/-- C10: The template-detail endpoint never fails because of the remote
generator fetch: for a known template it returns a successful response
for every fetch outcome, and when the fetch raises, available_lines is
null. -/
theorem template_details_tolerates_fetch_failure (store : TemplateStore)
    (template_name : String) (t : TemplateConfig)
    (gen_result : Except String Generator)
    (h : get_template store template_name = some t) :
    (∃ info, get_template_details store template_name gen_result = .ok info) ∧
    (∀ e, gen_result = .error e →
      get_template_details store template_name gen_result
        = .ok ⟨template_name, t.generator_id, t.subject_id, t.due_days,
            t.description, none⟩) := by
  constructor
  · cases gen_result with
    | ok g =>
        refine ⟨⟨template_name, t.generator_id, t.subject_id, t.due_days,
          t.description, some (g.lines.map GeneratorLine.name)⟩, ?_⟩
        simp [get_template_details, h]
    | error e =>
        refine ⟨⟨template_name, t.generator_id, t.subject_id, t.due_days,
          t.description, none⟩, ?_⟩
        simp [get_template_details, h]
  · rintro e rfl
    simp [get_template_details, h]

/-- Witness for C10: a failing generator fetch still yields a successful
detail response with available_lines null. -/
theorem template_details_tolerates_witness :
    get_template_details [("t", ⟨7, 8, 14, none⟩)] "t" (.error "down")
      = .ok ⟨"t", 7, 8, 14, none, none⟩ :=
  (template_details_tolerates_fetch_failure [("t", ⟨7, 8, 14, none⟩)] "t"
    ⟨7, 8, 14, none⟩ (.error "down") rfl).2 "down" rfl

end FakturoidBot
